import Mathlib

/-!
Shallow embedding of `custom_components/google_tts/openaitts_engine.py`.

The repository is a single Python file: an engine class `OpenAITTSEngine`
wrapping a vendor client for a generative speech API.  Its one meaningful
method, `get_tts`, resolves a voice and a prompt, optionally warns that a
numeric speed value is ignored, builds a request configuration, and runs a
bounded retry loop (`max_retries = 1`, i.e. two total attempts, with a
one-second sleep between them) around the remote call, response-shape
validation, and base64 decoding of the inline audio payload.

The remote call is modelled by an oracle `call : GenerateRequest → Nat →
CallOutcome` giving, for the request actually sent and each attempt index,
either a raised exception or a vendor response object.  `get_tts` returns a
record of the observable behaviour of one invocation: the request sent, the
warning flag, the number of call attempts and sleeps performed, the final
outcome, and the engine state after the call.
-/

set_option autoImplicit false

/-- Base64 alphabet: the 6-bit value of a character in the standard
alphabet `A-Z a-z 0-9 + /`, or `none` for any other character. -/
def b64CharVal (c : Char) : Option Nat :=
  if 'A' ≤ c ∧ c ≤ 'Z' then some (c.toNat - 65)
  else if 'a' ≤ c ∧ c ≤ 'z' then some (c.toNat - 97 + 26)
  else if '0' ≤ c ∧ c ≤ '9' then some (c.toNat - 48 + 52)
  else if c = '+' then some 62
  else if c = '/' then some 63
  else none

/-- Standard base64 decoding of a character list, four characters at a
time, with `=` padding allowed only in the final quadruple.  Models the
Python standard-library call `base64.b64decode` (used at line 129 of the
source) on canonically padded input; any ill-formed input yields `none`,
which the engine's retried block treats as a raised exception. -/
def b64decodeChars : List Char → Option (List Nat)
  | [] => some []
  | a :: b :: c :: d :: rest =>
    (b64CharVal a).bind fun va =>
    (b64CharVal b).bind fun vb =>
    if c = '=' then
      if d = '=' ∧ rest.isEmpty then some [va * 4 + vb / 16] else none
    else
      (b64CharVal c).bind fun vc =>
      if d = '=' then
        if rest.isEmpty then some [va * 4 + vb / 16, (vb % 16) * 16 + vc / 4]
        else none
      else
        (b64CharVal d).bind fun vd =>
        (b64decodeChars rest).map fun tail =>
          (va * 4 + vb / 16) :: ((vb % 16) * 16 + vc / 4) ::
            ((vc % 4) * 64 + vd) :: tail
  | _ => none

/-- `base64.b64decode` on a string: decode its character sequence. -/
def b64decode (s : String) : Option (List Nat) :=
  b64decodeChars s.data

/-- The `inlineData` object of a response part; its `data` attribute holds
the base64-encoded audio payload. -/
structure InlineData where
  data : String
  deriving Repr, DecidableEq

/-- A part of a candidate's content.  `inlineData = none` models a part
whose `inlineData` attribute is absent or `None` (the `getattr(parts[0],
"inlineData", None)` check at line 124 of the source). -/
structure ResponsePart where
  inlineData : Option InlineData
  deriving Repr, DecidableEq

/-- A candidate's `content` object, holding its list of parts.  A `None`
or missing `parts` attribute is modelled by the empty list: both are falsy
in the source's `getattr(candidate.content, "parts", None)` check. -/
structure Content where
  parts : List ResponsePart
  deriving Repr, DecidableEq

/-- A response candidate. -/
structure Candidate where
  content : Content
  deriving Repr, DecidableEq

/-- The vendor response object.  A missing or `None` `candidates`
attribute is modelled by the empty list: both are falsy in the source's
`getattr(response, "candidates", None) and len(response.candidates) > 0`
check. -/
structure Response where
  candidates : List Candidate
  deriving Repr, DecidableEq

/-- `AudioResponse`: a simple wrapper with a `content` attribute holding
the raw decoded audio bytes. -/
structure AudioResponse where
  content : List Nat
  deriving Repr, DecidableEq

/-- The exceptions that can be raised inside the retried block of
`get_tts`: the remote call raising, the two `HomeAssistantError` shape
validations ("No audio returned from Gemini TTS" and "Malformed response
from Gemini TTS"), and a `binascii.Error` from `base64.b64decode`. -/
inductive AttemptError where
  | remote
  | noAudio
  | malformed
  | badBase64
  deriving Repr, DecidableEq

/-- The final user-facing error: `HomeAssistantError("Failed to fetch TTS
audio from Gemini after retries")`, raised `from exc`, so it wraps the
last underlying exception. -/
inductive FinalError where
  | wrapped (cause : AttemptError)
  deriving Repr, DecidableEq

/-- Outcome of one invocation of `self._client.models.generate_content`:
either an exception is raised or a response object is returned. -/
inductive CallOutcome where
  | raise
  | reply (r : Response)
  deriving Repr, DecidableEq

/-- The body of the `try` block after the remote call returned `response`
(lines 114-130 of the source): pick the first candidate if the candidate
list is nonempty, raise "No audio returned" if there is no candidate or
the candidate's content has no parts, raise "Malformed response" if the
first part lacks `inlineData`, then base64-decode the inline data and
return it wrapped in an `AudioResponse`. -/
def extractAudio (response : Response) : Except AttemptError AudioResponse :=
  match response.candidates with
  | [] => .error .noAudio
  | candidate :: _ =>
    match candidate.content.parts with
    | [] => .error .noAudio
    | p :: _ =>
      match p.inlineData with
      | none => .error .malformed
      | some d =>
        match b64decode d.data with
        | none => .error .badBase64
        | some bs => .ok ⟨bs⟩

/-- One full attempt of the retried block: if the remote call raises, the
attempt fails with that exception; otherwise the returned response is
validated and decoded by `extractAudio`. -/
def runAttempt (o : CallOutcome) : Except AttemptError AudioResponse :=
  match o with
  | .raise => .error .remote
  | .reply r => extractAudio r

deriving instance DecidableEq for Except

/-- Observable behaviour of the `while True` retry loop: how many call
attempts were made, how many `time.sleep(1)` pauses happened, and the
final outcome (a returned `AudioResponse` or the final wrapped error). -/
structure RunResult where
  calls : Nat
  sleeps : Nat
  outcome : Except FinalError AudioResponse
  deriving Repr, DecidableEq

/-- The `while True` loop of `get_tts` (lines 105-144 of the source),
with `retriesLeft = max_retries - attempt`.  A successful attempt returns
immediately; a failed attempt with retries remaining sleeps one second and
continues with the next attempt index; a failed attempt with no retries
remaining raises the final error wrapping the last exception. -/
def ttsLoop (call : Nat → CallOutcome) : Nat → Nat → RunResult
  | 0, attempt =>
    match runAttempt (call attempt) with
    | .ok a => ⟨1, 0, .ok a⟩
    | .error e => ⟨1, 0, .error (.wrapped e)⟩
  | retriesLeft + 1, attempt =>
    match runAttempt (call attempt) with
    | .ok a => ⟨1, 0, .ok a⟩
    | .error _ =>
      let rest := ttsLoop call retriesLeft (attempt + 1)
      ⟨rest.calls + 1, rest.sleeps + 1, rest.outcome⟩

/-- `PrebuiltVoiceConfig(voice_name=voice)`. -/
structure PrebuiltVoiceConfig where
  voice_name : String
  deriving Repr, DecidableEq

/-- `VoiceConfig(prebuilt_voice_config=...)`. -/
structure VoiceConfig where
  prebuilt_voice_config : PrebuiltVoiceConfig
  deriving Repr, DecidableEq

/-- `SpeechConfig(voice_config=...)`. -/
structure SpeechConfig where
  voice_config : VoiceConfig
  deriving Repr, DecidableEq

/-- `GenerateContentConfig(response_modalities=["AUDIO"], speech_config=...)`. -/
structure GenerateContentConfig where
  response_modalities : List String
  speech_config : SpeechConfig
  deriving Repr, DecidableEq

/-- The arguments of the `generate_content` call: model name, prompt
contents, and configuration. -/
structure GenerateRequest where
  model : String
  contents : String
  config : GenerateContentConfig
  deriving Repr, DecidableEq

/-- The engine's configuration fields, set in `__init__` and never
reassigned: `_api_key`, `_voice`, `_model`, `_speed`, `_url`. -/
structure OpenAITTSEngine where
  api_key : String
  voice : String
  model : String
  speed : Rat
  url : Option String
  deriving Repr, DecidableEq

/-- `HomeAssistantError("Invalid Gemini API key or client initialization
failed")`, raised by the constructor when the vendor client cannot be
built. -/
inductive InitError where
  | clientInitFailed
  deriving Repr, DecidableEq

/-- `OpenAITTSEngine.__init__`: store the five configuration fields and
build the vendor client; `clientOk` models whether `genai.Client(api_key)`
succeeds.  On failure the constructor raises and no engine exists. -/
def OpenAITTSEngine.construct (api_key voice model : String) (speed : Rat)
    (url : Option String) (clientOk : Bool) :
    Except InitError OpenAITTSEngine :=
  if clientOk then .ok ⟨api_key, voice, model, speed, url⟩
  else .error .clientInitFailed

/-- Everything observable about one `get_tts` invocation: the request sent
to the remote call on every attempt, whether the speed warning was logged,
the attempt and sleep counts, the final outcome, and the engine state when
the method returns. -/
structure GetTtsResult where
  request : GenerateRequest
  warned : Bool
  calls : Nat
  sleeps : Nat
  outcome : Except FinalError AudioResponse
  engineAfter : OpenAITTSEngine
  deriving Repr, DecidableEq

/-- Lines 74-76 of the source: `if voice is None: voice = self._voice`. -/
def resolveVoice (self : OpenAITTSEngine) (voice : Option String) : String :=
  match voice with
  | none => self.voice
  | some v => v

/-- Lines 78-83 of the source: `if instructions: prompt =
f"{instructions}\n{text}" else: prompt = text`.  Python truthiness makes
a `None` and an empty instructions string behave identically. -/
def resolvePrompt (text : String) (instructions : Option String) : String :=
  match instructions with
  | none => text
  | some i => if i = "" then text else i ++ "\n" ++ text

/-- Lines 91-101 and 108-112 of the source: the configuration and the
argument triple handed to `generate_content` on every attempt. -/
def buildRequest (self : OpenAITTSEngine) (text : String)
    (instructions : Option String) (voice : Option String) : GenerateRequest :=
  ⟨self.model, resolvePrompt text instructions,
    ⟨["AUDIO"], ⟨⟨⟨resolveVoice self voice⟩⟩⟩⟩⟩

/-- `OpenAITTSEngine.get_tts(text, speed=None, instructions=None,
voice=None)` (lines 57-144 of the source): resolve the voice and the
prompt, log a warning when `speed is not None`, build the single-speaker
AUDIO configuration with the resolved voice, then run the retry loop with
`max_retries = 1` starting at `attempt = 0`.  The remote behaviour is
supplied by the oracle `call`. -/
def get_tts (self : OpenAITTSEngine) (call : GenerateRequest → Nat → CallOutcome)
    (text : String) (speed : Option Rat) (instructions : Option String)
    (voice : Option String) : GetTtsResult :=
  let req := buildRequest self text instructions voice
  let warned := speed.isSome
  let run := ttsLoop (call req) 1 0
  ⟨req, warned, run.calls, run.sleeps, run.outcome, self⟩

/-- `OpenAITTSEngine.close`: a no-op returning the engine unchanged. -/
def OpenAITTSEngine.close (self : OpenAITTSEngine) : OpenAITTSEngine :=
  self

/-- `OpenAITTSEngine.get_supported_langs`: the fixed hardcoded list of
BCP-47 language codes (lines 150-161 of the source). -/
def get_supported_langs : List String :=
  ["ar-EG", "de-DE", "en-US", "es-US", "fr-FR", "hi-IN",
   "id-ID", "it-IT", "ja-JP", "ko-KR", "nl-NL", "pl-PL",
   "pt-BR", "ru-RU", "th-TH", "tr-TR", "vi-VN", "ro-RO",
   "uk-UA", "bn-BD", "en-IN", "mr-IN", "ta-IN", "te-IN"]

/-- A response has invalid shape when it has no candidate, or its first
candidate's content has no parts, or the first part lacks inline data —
exactly the conditions under which lines 116-126 of the source raise. -/
def shapeInvalid (r : Response) : Bool :=
  match r.candidates with
  | [] => true
  | c :: _ =>
    match c.content.parts with
    | [] => true
    | p :: _ => p.inlineData.isNone

/-- A concrete engine configuration used to instantiate theorems with
hypotheses at specific inputs. -/
def sampleEngine : OpenAITTSEngine :=
  ⟨"key", "Kore", "gemini-2.5-flash-preview-tts", 1, none⟩

/-- A concrete well-formed response whose first part carries the base64
payload "aGVsbG8=" (the ASCII bytes of "hello"). -/
def sampleResponse : Response :=
  ⟨[⟨⟨[⟨some ⟨"aGVsbG8="⟩⟩]⟩⟩]⟩

/-! ## Behaviour of the retry loop -/

/-- If the first attempt succeeds, the loop returns immediately: one call,
no sleep. -/
theorem ttsLoop_first_ok (call : Nat → CallOutcome) (a : AudioResponse)
    (h : runAttempt (call 0) = .ok a) :
    ttsLoop call 1 0 = ⟨1, 0, .ok a⟩ := by
  simp [ttsLoop, h]

/-- If the first attempt fails and the second succeeds, the loop makes two
calls with one sleep in between and returns the second attempt's value. -/
theorem ttsLoop_retry_ok (call : Nat → CallOutcome) (a : AudioResponse) (e0 : AttemptError)
    (h0 : runAttempt (call 0) = .error e0) (h1 : runAttempt (call 1) = .ok a) :
    ttsLoop call 1 0 = ⟨2, 1, .ok a⟩ := by
  simp [ttsLoop, h0, h1]

/-- If both attempts fail, the loop makes exactly two calls and raises the
final error wrapping the second attempt's exception. -/
theorem ttsLoop_both_fail (call : Nat → CallOutcome) (e0 e1 : AttemptError)
    (h0 : runAttempt (call 0) = .error e0) (h1 : runAttempt (call 1) = .error e1) :
    ttsLoop call 1 0 = ⟨2, 1, .error (.wrapped e1)⟩ := by
  simp [ttsLoop, h0, h1]

/-- Two behaviours that both fail on attempt 0 and agree on attempt 1 are
indistinguishable to the loop: the first attempt's exception is only
logged, never returned. -/
theorem ttsLoop_ext_fail (f g : Nat → CallOutcome) (ef eg : AttemptError)
    (hf : runAttempt (f 0) = .error ef) (hg : runAttempt (g 0) = .error eg)
    (h1 : f 1 = g 1) :
    ttsLoop f 1 0 = ttsLoop g 1 0 := by
  simp [ttsLoop, hf, hg, h1]

/-! ## The claims -/

/-- Claim C1: whenever the remote call (or the subsequent response
validation) raises on both attempts, `get_tts` makes exactly 2 call
attempts, no more, and raises the final error wrapping the last
underlying exception. -/
theorem claim_C1 (eng : OpenAITTSEngine) (call : GenerateRequest → Nat → CallOutcome)
    (text : String) (speed : Option Rat) (instr vOpt : Option String)
    (err1 : GenerateRequest → AttemptError)
    (h0 : ∀ q, ∃ e0, runAttempt (call q 0) = .error e0)
    (h1 : ∀ q, runAttempt (call q 1) = .error (err1 q)) :
    (get_tts eng call text speed instr vOpt).calls = 2 ∧
    (get_tts eng call text speed instr vOpt).outcome =
      Except.error (FinalError.wrapped (err1 (get_tts eng call text speed instr vOpt).request)) := by
  obtain ⟨e0, h0q⟩ := h0 (buildRequest eng text instr vOpt)
  have hloop := ttsLoop_both_fail (call (buildRequest eng text instr vOpt)) e0
    (err1 (buildRequest eng text instr vOpt)) h0q (h1 _)
  constructor
  · show (ttsLoop (call (buildRequest eng text instr vOpt)) 1 0).calls = 2
    rw [hloop]
  · show (ttsLoop (call (buildRequest eng text instr vOpt)) 1 0).outcome =
      Except.error (FinalError.wrapped (err1 (buildRequest eng text instr vOpt)))
    rw [hloop]

/-- Claim C1, instantiated: a remote call that always raises yields two
attempts and the final wrapped error. -/
theorem claim_C1_witness :
    (get_tts sampleEngine (fun _ _ => CallOutcome.raise) "hello" none none none).calls = 2 ∧
    (get_tts sampleEngine (fun _ _ => CallOutcome.raise) "hello" none none none).outcome =
      Except.error (FinalError.wrapped AttemptError.remote) :=
  claim_C1 sampleEngine (fun _ _ => CallOutcome.raise) "hello" none none none
    (fun _ => AttemptError.remote) (fun _ => ⟨AttemptError.remote, rfl⟩) (fun _ => rfl)

/-- Claim C2: a response with zero candidates, zero parts, or a first part
without inline audio data makes the retried block raise one of the two
shape errors, and this failure is subject to exactly the same retry policy
as a raised transport exception: the whole observable behaviour of
`get_tts` is unchanged when such a response on attempt 0 is replaced by a
raised exception. -/
theorem claim_C2 (r : Response) (eng : OpenAITTSEngine)
    (cont : GenerateRequest → Nat → CallOutcome)
    (text : String) (speed : Option Rat) (instr vOpt : Option String)
    (hr : shapeInvalid r = true) :
    (extractAudio r = .error .noAudio ∨ extractAudio r = .error .malformed) ∧
    get_tts eng (fun q n => if n = 0 then CallOutcome.reply r else cont q n)
        text speed instr vOpt =
      get_tts eng (fun q n => if n = 0 then CallOutcome.raise else cont q n)
        text speed instr vOpt := by
  have herr : extractAudio r = .error .noAudio ∨ extractAudio r = .error .malformed := by
    obtain ⟨cands⟩ := r
    rcases cands with _ | ⟨⟨⟨parts⟩⟩, cs⟩
    · exact Or.inl rfl
    · rcases parts with _ | ⟨⟨idata⟩, ps⟩
      · exact Or.inl rfl
      · rcases idata with _ | d
        · exact Or.inr rfl
        · simp [shapeInvalid] at hr
  refine ⟨herr, ?_⟩
  obtain ⟨err, herr2⟩ : ∃ err, extractAudio r = .error err := by
    rcases herr with h | h
    exacts [⟨_, h⟩, ⟨_, h⟩]
  unfold get_tts
  have hrun : ttsLoop ((fun q n => if n = 0 then CallOutcome.reply r else cont q n)
        (buildRequest eng text instr vOpt)) 1 0 =
      ttsLoop ((fun q n => if n = 0 then CallOutcome.raise else cont q n)
        (buildRequest eng text instr vOpt)) 1 0 := by
    apply ttsLoop_ext_fail _ _ err .remote
    · simpa [runAttempt] using herr2
    · rfl
    · rfl
  simp only [hrun]

/-- Claim C2, instantiated at a zero-candidate response: it raises the
empty-response error and attempt 0 behaves exactly like a raised
exception. -/
theorem claim_C2_witness :
    shapeInvalid ⟨[]⟩ = true ∧
    ((extractAudio ⟨[]⟩ = .error .noAudio ∨ extractAudio ⟨[]⟩ = .error .malformed) ∧
     get_tts sampleEngine
        (fun _ n => if n = 0 then CallOutcome.reply ⟨[]⟩ else CallOutcome.raise)
        "hi" none none none =
      get_tts sampleEngine
        (fun _ n => if n = 0 then CallOutcome.raise else CallOutcome.raise)
        "hi" none none none) :=
  ⟨by decide,
   claim_C2 ⟨[]⟩ sampleEngine (fun _ _ => CallOutcome.raise) "hi" none none none (by decide)⟩

/-- Claim C3 fails as stated: with the empty instructions string, Python
truthiness skips the prepending, so the prompt is the bare text rather
than the empty string followed by a newline and the text. -/
theorem claim_C3_counterexample :
    (get_tts sampleEngine (fun _ _ => CallOutcome.raise) "t" none (some "") none).request.contents
      = "t" ∧
    ¬ ((get_tts sampleEngine (fun _ _ => CallOutcome.raise) "t" none (some "") none).request.contents
        = "" ++ "\n" ++ "t") :=
  ⟨rfl, by decide⟩

/-- Claim C3, amended: for every nonempty instructions string X the prompt
sent to the remote call is X, a newline, then the text; with no
instructions the prompt is the text unmodified. -/
theorem claim_C3_amended (eng : OpenAITTSEngine) (call : GenerateRequest → Nat → CallOutcome)
    (text : String) (speed : Option Rat) (vOpt : Option String) (X : String)
    (hX : X ≠ "") :
    (get_tts eng call text speed (some X) vOpt).request.contents = X ++ "\n" ++ text ∧
    (get_tts eng call text speed none vOpt).request.contents = text := by
  constructor
  · show resolvePrompt text (some X) = X ++ "\n" ++ text
    simp [resolvePrompt, hX]
  · rfl

/-- Claim C3 (amended), instantiated at a concrete nonempty instructions
string. -/
theorem claim_C3_amended_witness :
    "Speak slowly" ≠ "" ∧
    ((get_tts sampleEngine (fun _ _ => CallOutcome.raise) "t" none (some "Speak slowly") none).request.contents
        = "Speak slowly" ++ "\n" ++ "t" ∧
     (get_tts sampleEngine (fun _ _ => CallOutcome.raise) "t" none none none).request.contents = "t") :=
  ⟨by decide,
   claim_C3_amended sampleEngine (fun _ _ => CallOutcome.raise) "t" none none "Speak slowly" (by decide)⟩

/-- Claim C4: when the remote call raises on attempt 1 and attempt 2
succeeds with a valid response, `get_tts` returns the decoded audio of
attempt 2 after exactly two calls and exactly one one-second delay. -/
theorem claim_C4 (eng : OpenAITTSEngine) (call : GenerateRequest → Nat → CallOutcome)
    (text : String) (speed : Option Rat) (instr vOpt : Option String) (a : AudioResponse)
    (h0 : ∀ q, call q 0 = CallOutcome.raise)
    (h1 : ∀ q, runAttempt (call q 1) = .ok a) :
    (get_tts eng call text speed instr vOpt).outcome = Except.ok a ∧
    (get_tts eng call text speed instr vOpt).calls = 2 ∧
    (get_tts eng call text speed instr vOpt).sleeps = 1 := by
  have h0r : runAttempt (call (buildRequest eng text instr vOpt) 0) = .error .remote := by
    rw [h0]; rfl
  have hloop := ttsLoop_retry_ok (call (buildRequest eng text instr vOpt)) a .remote h0r (h1 _)
  refine ⟨?_, ?_, ?_⟩
  · show (ttsLoop (call (buildRequest eng text instr vOpt)) 1 0).outcome = Except.ok a
    rw [hloop]
  · show (ttsLoop (call (buildRequest eng text instr vOpt)) 1 0).calls = 2
    rw [hloop]
  · show (ttsLoop (call (buildRequest eng text instr vOpt)) 1 0).sleeps = 1
    rw [hloop]

/-- Claim C4, instantiated: raise on attempt 1, deliver the sample
response on attempt 2; the decoded bytes of "aGVsbG8=" come back after
one retry delay. -/
theorem claim_C4_witness :
    (get_tts sampleEngine
        (fun _ n => if n = 0 then CallOutcome.raise else CallOutcome.reply sampleResponse)
        "hi" none none none).outcome = Except.ok ⟨[104, 101, 108, 108, 111]⟩ ∧
    (get_tts sampleEngine
        (fun _ n => if n = 0 then CallOutcome.raise else CallOutcome.reply sampleResponse)
        "hi" none none none).calls = 2 ∧
    (get_tts sampleEngine
        (fun _ n => if n = 0 then CallOutcome.raise else CallOutcome.reply sampleResponse)
        "hi" none none none).sleeps = 1 :=
  claim_C4 sampleEngine _ "hi" none none none ⟨[104, 101, 108, 108, 111]⟩
    (fun _ => rfl) (fun _ => by decide)

/-- Claim C5: the voice in the outgoing request configuration is the
per-call override when supplied and otherwise the engine's default, and a
successfully constructed engine always carries the voice it was given. -/
theorem claim_C5 (eng : OpenAITTSEngine) (call : GenerateRequest → Nat → CallOutcome)
    (text : String) (speed : Option Rat) (instr : Option String) :
    (∀ v, (get_tts eng call text speed instr (some v)).request.config.speech_config.voice_config.prebuilt_voice_config.voice_name = v) ∧
    ((get_tts eng call text speed instr none).request.config.speech_config.voice_config.prebuilt_voice_config.voice_name = eng.voice) ∧
    (∀ k v m s u, (OpenAITTSEngine.construct k v m s u true).map OpenAITTSEngine.voice
        = Except.ok v) :=
  ⟨fun _ => rfl, rfl, fun _ _ _ _ _ => rfl⟩

/-- Claim C6: when the first attempt returns a response whose first part
carries a base64 string that decodes to `bs`, `get_tts` returns exactly
those bytes wrapped in the audio result object. -/
theorem claim_C6 (eng : OpenAITTSEngine) (call : GenerateRequest → Nat → CallOutcome)
    (text : String) (speed : Option Rat) (instr vOpt : Option String)
    (r : Response) (c : Candidate) (cs : List Candidate)
    (p : ResponsePart) (ps : List ResponsePart) (s : String) (bs : List Nat)
    (hcall : ∀ q, call q 0 = CallOutcome.reply r)
    (hcand : r.candidates = c :: cs)
    (hparts : c.content.parts = p :: ps)
    (hdata : p.inlineData = some ⟨s⟩)
    (hdec : b64decode s = some bs) :
    (get_tts eng call text speed instr vOpt).outcome = Except.ok ⟨bs⟩ := by
  have hex : extractAudio r = Except.ok ⟨bs⟩ := by
    unfold extractAudio
    rw [hcand]
    simp only [hparts, hdata, hdec]
  have hrun : runAttempt (call (buildRequest eng text instr vOpt) 0) = Except.ok ⟨bs⟩ := by
    rw [hcall]
    exact hex
  show (ttsLoop (call (buildRequest eng text instr vOpt)) 1 0).outcome = Except.ok ⟨bs⟩
  rw [ttsLoop_first_ok _ _ hrun]

/-- Claim C6, instantiated at the known base64 string "aGVsbG8=", whose
standard decoding is the ASCII bytes of "hello". -/
theorem claim_C6_witness :
    b64decode "aGVsbG8=" = some [104, 101, 108, 108, 111] ∧
    (get_tts sampleEngine (fun _ _ => CallOutcome.reply sampleResponse)
        "hi" none none none).outcome = Except.ok ⟨[104, 101, 108, 108, 111]⟩ :=
  ⟨by decide,
   claim_C6 sampleEngine (fun _ _ => CallOutcome.reply sampleResponse) "hi" none none none
     sampleResponse ⟨⟨[⟨some ⟨"aGVsbG8="⟩⟩]⟩⟩ [] ⟨some ⟨"aGVsbG8="⟩⟩ [] "aGVsbG8="
     [104, 101, 108, 108, 111]
     (fun _ => rfl) rfl rfl rfl (by decide)⟩

/-- Claim C7: supplying a per-call speed emits the warning, and the speed
value has no effect on anything else: the request (configuration and
prompt), attempt and sleep counts, outcome, and engine state all agree
with a run made with any other speed argument. -/
theorem claim_C7 (eng : OpenAITTSEngine) (call : GenerateRequest → Nat → CallOutcome)
    (text : String) (instr vOpt : Option String) (s : Rat) (s2 : Option Rat) :
    (get_tts eng call text (some s) instr vOpt).warned = true ∧
    (get_tts eng call text (some s) instr vOpt).request
      = (get_tts eng call text s2 instr vOpt).request ∧
    (get_tts eng call text (some s) instr vOpt).calls
      = (get_tts eng call text s2 instr vOpt).calls ∧
    (get_tts eng call text (some s) instr vOpt).sleeps
      = (get_tts eng call text s2 instr vOpt).sleeps ∧
    (get_tts eng call text (some s) instr vOpt).outcome
      = (get_tts eng call text s2 instr vOpt).outcome ∧
    (get_tts eng call text (some s) instr vOpt).engineAfter
      = (get_tts eng call text s2 instr vOpt).engineAfter :=
  ⟨rfl, rfl, rfl, rfl, rfl, rfl⟩

/-- Claim C8: `get_supported_langs` is the fixed 24-entry list of BCP-47
locale tags, in order, a constant independent of any engine state. -/
theorem claim_C8 :
    get_supported_langs.length = 24 ∧
    get_supported_langs =
      ["ar-EG", "de-DE", "en-US", "es-US", "fr-FR", "hi-IN",
       "id-ID", "it-IT", "ja-JP", "ko-KR", "nl-NL", "pl-PL",
       "pt-BR", "ru-RU", "th-TH", "tr-TR", "vi-VN", "ro-RO",
       "uk-UA", "bn-BD", "en-IN", "mr-IN", "ta-IN", "te-IN"] :=
  ⟨rfl, rfl⟩

/-- Claim C9: no `get_tts` call mutates engine state — after any call,
with or without overrides, every configuration field equals its value at
construction. -/
theorem claim_C9 (eng : OpenAITTSEngine) (call : GenerateRequest → Nat → CallOutcome)
    (text : String) (speed : Option Rat) (instr vOpt : Option String) :
    (get_tts eng call text speed instr vOpt).engineAfter = eng ∧
    (get_tts eng call text speed instr vOpt).engineAfter.voice = eng.voice ∧
    (get_tts eng call text speed instr vOpt).engineAfter.model = eng.model ∧
    (get_tts eng call text speed instr vOpt).engineAfter.api_key = eng.api_key ∧
    (get_tts eng call text speed instr vOpt).engineAfter.speed = eng.speed ∧
    (get_tts eng call text speed instr vOpt).engineAfter.url = eng.url :=
  ⟨rfl, rfl, rfl, rfl, rfl, rfl⟩

/-- Claim C10: calling with the empty instructions string behaves exactly
like calling with no instructions: the whole observable behaviour agrees,
and the prompt sent downstream is the bare text. -/
theorem claim_C10 (eng : OpenAITTSEngine) (call : GenerateRequest → Nat → CallOutcome)
    (text : String) (speed : Option Rat) (vOpt : Option String) :
    get_tts eng call text speed (some "") vOpt = get_tts eng call text speed none vOpt ∧
    (get_tts eng call text speed (some "") vOpt).request.contents = text :=
  ⟨rfl, rfl⟩
